import Mathlib

/-!
Verification development for the SKSkyforge repository.

Part 1 embeds the JavaScript bridge module `index.js` (the only executable
source file in the repository): `checkInstalled` probes two Python
interpreters for the `skskyforge` package, and `run` shells out to the
external `skskyforge` command.  The external world (shell command execution)
is modelled as a function from command strings to outcomes.

Part 2 models the computational core described by the specification
(domain calculators, report assembler, calendar builder, JSON formatter).
That core is not present in the repository source, so each of its
definitions is modelled from the specification text, as noted in its
doc comment.
-/

namespace Bridge

/-- Outcome of executing one shell command: either the standard output,
decoded as a UTF-8 string, or an execution error carrying a message. -/
inductive ExecOutcome where
  | ok (stdout : String)
  | err (message : String)
deriving DecidableEq, Repr

/-- The environment the bridge runs in: what each shell command does when
executed.  `execSync` of the source is modelled as looking up the command
string here. -/
def Env : Type := String → ExecOutcome

/-- The command `checkInstalled` runs for one interpreter candidate:
the source builds the template string
python -c "import skskyforge" for each of python3 and python. -/
def importProbe (py : String) : String :=
  py ++ " -c \"import skskyforge\""

/-- Function `checkInstalled` from index.js: loop over python3 then python, return
true on the first probe that succeeds; the empty catch block swallows any
execution error and moves to the next candidate; return false after the
loop.  The early return is the first `.ok` outcome. -/
def checkInstalled (env : Env) : Bool :=
  match env (importProbe "python3") with
  | .ok _ => true
  | .err _ =>
    match env (importProbe "python") with
    | .ok _ => true
    | .err _ => false

/-- The exact command string `run` hands to the shell: the literal
concatenation of the prefix and the caller's argument string. -/
def runCommand (args : String) : String :=
  "skskyforge " ++ args

/-- Function `run` from index.js: execute the command and return its outcome
unchanged; there is no try/catch around `execSync`, so an execution error
propagates to the caller as is. -/
def run (env : Env) (args : String) : ExecOutcome :=
  env (runCommand args)

/-- Constant `VERSION` exported by index.js. -/
def VERSION : String := "1.0.0"

/-- Constant `PYTHON_PACKAGE` exported by index.js. -/
def PYTHON_PACKAGE : String := "skskyforge"

end Bridge

namespace SkyForge

/-- Modelled from the spec: a calendar date of the Gregorian calendar,
used for the required birth date (year, month 1..12, day 1..31). -/
structure BirthDate where
  year : Nat
  month : Nat
  day : Nat
deriving DecidableEq, Repr

/-- Modelled from the spec: optional profile location — latitude,
longitude, IANA timezone name. -/
structure Location where
  lat : ℚ
  lon : ℚ
  tz : String
deriving DecidableEq, Repr

/-- Modelled from the spec (§3): the Profile record — name, required
birth date (its absence is the structural invalidity `assemble` must
reject), optional birth time (minutes since midnight), optional
location. -/
structure Profile where
  name : String
  birthDate : Option BirthDate
  birthTime : Option Nat
  location : Option Location
deriving DecidableEq, Repr

/-- Modelled from the spec (§4.1): the host machine's ambient state
(local timezone offset, wall clock).  Core computations receive it but
must not let it influence any result — time is an explicit parameter,
never ambient state (§9). -/
structure HostEnv where
  hostTzOffsetMinutes : Int
  wallClockNow : Int
deriving DecidableEq, Repr

/-- Modelled from the spec (§4.1): epoch day-number arithmetic.  Days
since 1970-01-01 of a civil Gregorian date (standard era/year-of-era
decomposition; exact integer arithmetic, no floating point). -/
def dayOfCivil (y m d : Nat) : Int :=
  let yAdj := if m ≤ 2 then y - 1 else y
  let era := yAdj / 400
  let yoe := yAdj % 400
  let mp := (m + 9) % 12
  let doy := (153 * mp + 2) / 5 + d - 1
  let doe := yoe * 365 + yoe / 4 - yoe / 100 + doy
  (era * 146097 + doe : Int) - 719468

/-- Sum of the decimal digits of a natural number. -/
def digitSum (n : Nat) : Nat :=
  if n < 10 then n else n % 10 + digitSum (n / 10)
decreasing_by exact Nat.div_lt_self (by omega) (by omega)

/-- Modelled from the spec (§4.1): numerology digit-sum reduction with
master-number exceptions — reduce by digit sum until the value is a
single digit or one of the master numbers 11, 22, 33. -/
def reduceMaster (n : Nat) : Nat :=
  if n ≤ 9 ∨ n = 11 ∨ n = 22 ∨ n = 33 then n
  else reduceMaster (digitSum n)
decreasing_by
  have hle : ∀ m : Nat, digitSum m ≤ m := by
    intro m
    induction m using Nat.strong_induction_on with
    | _ m ih =>
      rw [digitSum]
      split
      · exact Nat.le_refl m
      · have hq := ih (m / 10) (Nat.div_lt_self (by omega) (by omega))
        omega
  have hq := hle (n / 10)
  rw [digitSum, if_neg (by omega : ¬ n < 10)]
  omega

/-- Synodic month length in units of 10⁻⁹ day (29.530588853 days),
kept as an exact integer so the epoch arithmetic is drift-free (§4.1). -/
def synodicScaled : Int := 29530588853

/-- Sidereal month length in units of 10⁻⁶ day (27.321661 days). -/
def siderealScaled : Int := 27321661

/-- Tropical year length in units of 10⁻⁶ day (365.242190 days). -/
def tropicalScaled : Int := 365242190

/-- Reference new moon: 2000-01-06 (UTC), as an epoch day number. -/
def newMoonEpoch : Int := dayOfCivil 2000 1 6

/-- Reference March equinox: 2000-03-20 (UTC), as an epoch day number. -/
def equinoxEpoch : Int := dayOfCivil 2000 3 20

/-- Modelled from the spec (§6): the timezone a computation runs in —
the Profile's IANA timezone when a location is present, the required
UTC fallback otherwise. -/
def resolveTz (p : Profile) : String :=
  match p.location with
  | some loc => loc.tz
  | none => "UTC"

/-- Modelled from the spec (§3, §7): the Moon DomainResult — phase
fraction in [0,1), zodiac sign 1..12, plus the `CalculatorDegraded`
flag and the timezone the calculation used. -/
structure MoonResult where
  fraction : ℚ
  sign : Nat
  degraded : Bool
  tz : String
deriving DecidableEq, Repr

/-- Modelled from the spec (§4.1): moon phase via synodic-month epoch
arithmetic — age since the reference new moon, reduced modulo the
synodic month in exact scaled-integer arithmetic; the phase fraction is
age over month length.  Location absence only degrades precision
(flagged), it never fails. -/
def moonCompute (p : Profile) (d : Int) : MoonResult :=
  let age : Int := ((d - newMoonEpoch) * 1000000000) % synodicScaled
  let pos : Int := ((d - newMoonEpoch) * 1000000) % siderealScaled
  { fraction := (age : ℚ) / (synodicScaled : ℚ)
    sign := ((pos * 12) / siderealScaled).toNat + 1
    degraded := p.location.isNone
    tz := resolveTz p }

/-- Modelled from the spec (§2, §8): the SolarReturn DomainResult —
solar ecliptic longitude in degrees, zodiac sign 1..12, degraded flag
and timezone (location-dependent like Moon, per the §8 example). -/
structure SolarReturnResult where
  longitude : ℚ
  sign : Nat
  degraded : Bool
  tz : String
deriving DecidableEq, Repr

/-- Modelled from the spec (§4.1): solar position via tropical-year
epoch arithmetic in exact scaled integers. -/
def solarCompute (p : Profile) (d : Int) : SolarReturnResult :=
  let pos : Int := ((d - equinoxEpoch) * 1000000) % tropicalScaled
  { longitude := (pos * 360 : ℚ) / (tropicalScaled : ℚ)
    sign := ((pos * 12) / tropicalScaled).toNat + 1
    degraded := p.location.isNone
    tz := resolveTz p }

/-- Modelled from the spec (§3): the Numerology DomainResult — the
life-path number. -/
structure NumerologyResult where
  lifePath : Nat
deriving DecidableEq, Repr

/-- Modelled from the spec (§4.1): life path via digit-sum reduction of
the birth date's year, month and day digits, with master-number
exceptions at 11/22/33.  Depends only on the birth date (§8 example). -/
def numerologyCompute (b : BirthDate) : NumerologyResult :=
  { lifePath := reduceMaster (digitSum b.year + digitSum b.month + digitSum b.day) }

/-- Modelled from the spec (§9 open question): the HumanDesign
DomainResult — a gate number 1..64 under a simplified documented
deterministic rule (the true rule is unspecified in the material). -/
structure HumanDesignResult where
  gate : Nat
deriving DecidableEq, Repr

/-- Modelled from the spec: birth time with the documented noon default
(720 minutes) when the optional field is absent (§3, §8 example). -/
def birthTimeMinutes (p : Profile) : Nat := p.birthTime.getD 720

/-- Modelled from the spec (§9): simplified deterministic HumanDesign
rule — gate from birth day number, target day and birth time, modulo 64. -/
def humanDesignCompute (p : Profile) (b : BirthDate) (d : Int) : HumanDesignResult :=
  { gate := ((dayOfCivil b.year b.month b.day + d + (birthTimeMinutes p : Int)) % 64).toNat + 1 }

/-- Modelled from the spec (§3): the IChing DomainResult — a hexagram
number 1..64. -/
structure IChingResult where
  hexagram : Nat
deriving DecidableEq, Repr

/-- Modelled from the spec (§9): simplified deterministic IChing rule —
hexagram from the target day and the life-path number, modulo 64. -/
def iChingCompute (b : BirthDate) (d : Int) : IChingResult :=
  { hexagram := ((d + ((numerologyCompute b).lifePath : Int)) % 64).toNat + 1 }

/-- Modelled from the spec (§3): the Biorhythm DomainResult — the three
cycle values, each already rounded to the fixed 4-decimal precision
demanded by §4.1 before inclusion, hence exact rationals. -/
structure BiorhythmResult where
  physical : ℚ
  emotional : ℚ
  intellectual : ℚ
deriving DecidableEq, Repr

/-- Modelled from the spec (§4.1): round a floating-point step to the
fixed precision of 4 decimal places before it enters a DomainResult. -/
noncomputable def round4 (x : ℝ) : ℚ :=
  ((⌊x * 10000 + 1/2⌋ : ℤ) : ℚ) / 10000

/-- Modelled from the spec (§4.1): one biorhythm cycle — a sinusoidal
function of days alive with the given fixed period, rounded to 4
decimals. -/
noncomputable def biorhythmCycle (t : Int) (period : Nat) : ℚ :=
  round4 (Real.sin (2 * Real.pi * t / period))

/-- Modelled from the spec (§4.1, §8): the three cycles with fixed
periods 23/28/33, of the day count between birth date and target date. -/
noncomputable def biorhythmCompute (b : BirthDate) (d : Int) : BiorhythmResult :=
  let t := d - dayOfCivil b.year b.month b.day
  { physical := biorhythmCycle t 23
    emotional := biorhythmCycle t 28
    intellectual := biorhythmCycle t 33 }

/-- Modelled from the spec (§3): RiskAssessment — composite score in
the bounded range 0..100 plus an ordered list of warning strings. -/
structure RiskAssessment where
  score : Nat
  warnings : List String
deriving DecidableEq, Repr

/-- Modelled from the spec (§4.2): deterministic weighted combination
with documented fixed weights, clipped to the valid 0..100 range;
warnings by fixed threshold rules (physical cycle below -0.7). -/
def riskAggregate (bio : BiorhythmResult) (moon : MoonResult) : RiskAssessment :=
  let raw : Int := 50 + ⌊bio.physical * 20⌋ + ⌊bio.emotional * 15⌋ + ⌊bio.intellectual * 15⌋
  { score := (min 100 (max 0 raw)).toNat
    warnings :=
      (if bio.physical < -(7 / 10 : ℚ) then ["biorhythm physical cycle below -0.7"] else [])
        ++ (if moon.fraction < (1 / 20 : ℚ) then ["new moon energy trough"] else []) }

/-- Modelled from the spec (§3): Recommendation — exercise tag,
nourishment tag and reading excerpt id from fixed catalogs. -/
structure Recommendation where
  exercise : String
  nourishment : String
  reading : Nat
deriving DecidableEq, Repr

/-- Modelled from the spec (§4.3): the elemental signal of a zodiac
sign (fire/earth/air/water as 0..3). -/
def elementOf (sign : Nat) : Nat := (sign - 1) % 4

/-- Modelled from the spec (§4.3): pure fixed-table lookup from the
elemental signals of the Moon and SolarReturn results; no ambient
state, so identical signals always select identical entries. -/
def recommendationSelect (moon : MoonResult) (solar : SolarReturnResult)
    (iching : IChingResult) : Recommendation :=
  { exercise :=
      match elementOf solar.sign with
      | 0 => "cardio"
      | 1 => "strength"
      | 2 => "breathwork"
      | _ => "swimming"
    nourishment :=
      match elementOf moon.sign with
      | 0 => "warming spices"
      | 1 => "root vegetables"
      | 2 => "light grains"
      | _ => "broths"
    reading := iching.hexagram }

/-- Modelled from the spec (§3): the DailyReport — target date, profile
reference, all DomainResults, RiskAssessment, Recommendation;
immutable once assembled. -/
structure DailyReport where
  date : Int
  profileName : String
  moon : MoonResult
  solar : SolarReturnResult
  numerology : NumerologyResult
  humanDesign : HumanDesignResult
  iChing : IChingResult
  biorhythm : BiorhythmResult
  risk : RiskAssessment
  recommendation : Recommendation
deriving DecidableEq, Repr

/-- Modelled from the spec (§7): the error kinds the core surfaces. -/
inductive SkError where
  | profileInvalid
  | dateRangeInvalid
deriving DecidableEq, Repr

/-- Modelled from the spec (§4.4): assembly of one day's report for a
profile whose required birth date is present — invokes every domain
calculator, then the risk aggregator, then the recommendation
selector, and packages the report.  Total: optional fields map to
documented defaults, never to errors.  The HostEnv parameter is the
ambient machine state the core receives but must never read (§4.1). -/
noncomputable def assembleValid (env : HostEnv) (p : Profile) (b : BirthDate)
    (d : Int) : DailyReport :=
  let moon := moonCompute p d
  let solar := solarCompute p d
  let numerology := numerologyCompute b
  let humanDesign := humanDesignCompute p b d
  let iching := iChingCompute b d
  let bio := biorhythmCompute b d
  { date := d
    profileName := p.name
    moon := moon
    solar := solar
    numerology := numerology
    humanDesign := humanDesign
    iChing := iching
    biorhythm := bio
    risk := riskAggregate bio moon
    recommendation := recommendationSelect moon solar iching }

/-- Modelled from the spec (§4.4): `assemble(profile, date)` — fails
with `ProfileInvalid` exactly when the required birth date is missing,
before any computation; otherwise packages the immutable DailyReport. -/
noncomputable def assemble (env : HostEnv) (p : Profile) (d : Int) :
    Except SkError DailyReport :=
  match p.birthDate with
  | none => .error .profileInvalid
  | some b => .ok (assembleValid env p b d)

/-- Modelled from the spec (§6): the core's public single-day surface. -/
noncomputable def computeDay (env : HostEnv) (p : Profile) (d : Int) :
    Except SkError DailyReport :=
  assemble env p d

/-- Modelled from the spec (§7): the documented maximum range length of
10 years, in days. -/
def maxRangeDays : Int := 3653

/-- Modelled from the spec (§4.5, §6, §7): `computeRange(p, start, end)`
— rejects an empty or over-long range with `DateRangeInvalid` and a
birth-date-less profile with `ProfileInvalid`, otherwise assembles one
report per day of the inclusive range, in ascending date order. -/
noncomputable def computeRange (env : HostEnv) (p : Profile) (s e : Int) :
    Except SkError (List DailyReport) :=
  if e < s then .error .dateRangeInvalid
  else if maxRangeDays < e - s + 1 then .error .dateRangeInvalid
  else
    match p.birthDate with
    | none => .error .profileInvalid
    | some b => .ok ((List.range (e - s + 1).toNat).map fun i : Nat => assembleValid env p b (s + (i : Int)))

/-- Modelled from the spec (§4.6): the JSON document tree a DailyReport
is rendered into.  Numbers are exact (integers, or rationals already at
fixed precision), so no value is altered by formatting. -/
inductive Json where
  | num (q : ℚ)
  | int (n : Int)
  | str (s : String)
  | bool (b : Bool)
  | arr (xs : List Json)
  | obj (fields : List (String × Json))

mutual

/-- Modelled from the spec (§4.6, §8): serialize a JSON tree to its
byte representation (a string), purely textual. -/
def Json.render : Json → String
  | .num q => toString q
  | .int n => toString n
  | .str s => "\"" ++ s ++ "\""
  | .bool b => if b then "true" else "false"
  | .arr xs => "[" ++ Json.renderList xs ++ "]"
  | .obj fs => "\x7b" ++ Json.renderFields fs ++ "\x7d"

/-- Comma-joined rendering of a JSON array's elements. -/
def Json.renderList : List Json → String
  | [] => ""
  | [j] => j.render
  | j :: rest => j.render ++ "," ++ Json.renderList rest

/-- Comma-joined rendering of a JSON object's key/value members. -/
def Json.renderFields : List (String × Json) → String
  | [] => ""
  | [(k, v)] => "\"" ++ k ++ "\":" ++ v.render
  | (k, v) :: rest => "\"" ++ k ++ "\":" ++ v.render ++ "," ++ Json.renderFields rest

end

/-- JSON encoding of a Moon DomainResult under its stable field names. -/
def MoonResult.toJson (m : MoonResult) : Json :=
  .obj [("fraction", .num m.fraction), ("sign", .int (m.sign : Int)),
        ("degraded", .bool m.degraded), ("tz", .str m.tz)]

/-- JSON decoding of a Moon DomainResult. -/
def MoonResult.fromJson : Json → Option MoonResult
  | .obj [("fraction", .num f), ("sign", .int s), ("degraded", .bool dg), ("tz", .str t)] =>
      some { fraction := f, sign := s.toNat, degraded := dg, tz := t }
  | _ => none

/-- JSON encoding of a SolarReturn DomainResult. -/
def SolarReturnResult.toJson (m : SolarReturnResult) : Json :=
  .obj [("longitude", .num m.longitude), ("sign", .int (m.sign : Int)),
        ("degraded", .bool m.degraded), ("tz", .str m.tz)]

/-- JSON decoding of a SolarReturn DomainResult. -/
def SolarReturnResult.fromJson : Json → Option SolarReturnResult
  | .obj [("longitude", .num l), ("sign", .int s), ("degraded", .bool dg), ("tz", .str t)] =>
      some { longitude := l, sign := s.toNat, degraded := dg, tz := t }
  | _ => none

/-- JSON encoding of a Numerology DomainResult. -/
def NumerologyResult.toJson (m : NumerologyResult) : Json :=
  .obj [("lifePath", .int (m.lifePath : Int))]

/-- JSON decoding of a Numerology DomainResult. -/
def NumerologyResult.fromJson : Json → Option NumerologyResult
  | .obj [("lifePath", .int n)] => some { lifePath := n.toNat }
  | _ => none

/-- JSON encoding of a HumanDesign DomainResult. -/
def HumanDesignResult.toJson (m : HumanDesignResult) : Json :=
  .obj [("gate", .int (m.gate : Int))]

/-- JSON decoding of a HumanDesign DomainResult. -/
def HumanDesignResult.fromJson : Json → Option HumanDesignResult
  | .obj [("gate", .int n)] => some { gate := n.toNat }
  | _ => none

/-- JSON encoding of an IChing DomainResult. -/
def IChingResult.toJson (m : IChingResult) : Json :=
  .obj [("hexagram", .int (m.hexagram : Int))]

/-- JSON decoding of an IChing DomainResult. -/
def IChingResult.fromJson : Json → Option IChingResult
  | .obj [("hexagram", .int n)] => some { hexagram := n.toNat }
  | _ => none

/-- JSON encoding of a Biorhythm DomainResult. -/
def BiorhythmResult.toJson (m : BiorhythmResult) : Json :=
  .obj [("physical", .num m.physical), ("emotional", .num m.emotional),
        ("intellectual", .num m.intellectual)]

/-- JSON decoding of a Biorhythm DomainResult. -/
def BiorhythmResult.fromJson : Json → Option BiorhythmResult
  | .obj [("physical", .num p), ("emotional", .num e), ("intellectual", .num i)] =>
      some { physical := p, emotional := e, intellectual := i }
  | _ => none

/-- Decode a list of JSON string leaves back to the strings. -/
def decodeStrings : List Json → Option (List String)
  | [] => some []
  | .str s :: rest => (decodeStrings rest).map (fun l => s :: l)
  | _ => none

/-- JSON encoding of a RiskAssessment. -/
def RiskAssessment.toJson (m : RiskAssessment) : Json :=
  .obj [("score", .int (m.score : Int)), ("warnings", .arr (m.warnings.map .str))]

/-- JSON decoding of a RiskAssessment. -/
def RiskAssessment.fromJson : Json → Option RiskAssessment
  | .obj [("score", .int n), ("warnings", .arr ws)] =>
      (decodeStrings ws).map (fun l => { score := n.toNat, warnings := l })
  | _ => none

/-- JSON encoding of a Recommendation. -/
def Recommendation.toJson (m : Recommendation) : Json :=
  .obj [("exercise", .str m.exercise), ("nourishment", .str m.nourishment),
        ("reading", .int (m.reading : Int))]

/-- JSON decoding of a Recommendation. -/
def Recommendation.fromJson : Json → Option Recommendation
  | .obj [("exercise", .str e), ("nourishment", .str n), ("reading", .int r)] =>
      some { exercise := e, nourishment := n, reading := r.toNat }
  | _ => none

/-- Modelled from the spec (§4.6): render a DailyReport to JSON — every
field appears under a stable documented name; numeric values pass
through unchanged. -/
def DailyReport.toJson (r : DailyReport) : Json :=
  .obj [("date", .int r.date), ("profile", .str r.profileName),
        ("moon", r.moon.toJson), ("solar", r.solar.toJson),
        ("numerology", r.numerology.toJson), ("humanDesign", r.humanDesign.toJson),
        ("iChing", r.iChing.toJson), ("biorhythm", r.biorhythm.toJson),
        ("risk", r.risk.toJson), ("recommendation", r.recommendation.toJson)]

/-- Modelled from the spec (§8): parse a rendered DailyReport JSON tree
back into the report. -/
def DailyReport.fromJson : Json → Option DailyReport
  | .obj [("date", .int d), ("profile", .str nm),
          ("moon", mj), ("solar", sj), ("numerology", nj), ("humanDesign", hj),
          ("iChing", ij), ("biorhythm", bj), ("risk", rj), ("recommendation", cj)] =>
    (MoonResult.fromJson mj).bind fun m =>
    (SolarReturnResult.fromJson sj).bind fun s =>
    (NumerologyResult.fromJson nj).bind fun nu =>
    (HumanDesignResult.fromJson hj).bind fun hd =>
    (IChingResult.fromJson ij).bind fun ic =>
    (BiorhythmResult.fromJson bj).bind fun bi =>
    (RiskAssessment.fromJson rj).bind fun rk =>
    (Recommendation.fromJson cj).map fun rc =>
      { date := d, profileName := nm, moon := m, solar := s, numerology := nu,
        humanDesign := hd, iChing := ic, biorhythm := bi, risk := rk,
        recommendation := rc }
  | _ => none

/-- Modelled from the spec (§8): the serialized bytes of one day's
computation, as compared for the determinism property. -/
noncomputable def serializeDay (env : HostEnv) (p : Profile) (d : Int) :
    Except SkError String :=
  (computeDay env p d).map (fun r => (DailyReport.toJson r).render)

/-- Modelled from the spec (§8 example): a full-year calendar build —
from January 1st to December 31st of the given year. -/
noncomputable def computeYear (env : HostEnv) (p : Profile) (y : Nat) :
    Except SkError (List DailyReport) :=
  computeRange env p (dayOfCivil y 1 1) (dayOfCivil y 12 31)

/-- The birth date of the spec's §8 worked example (1992-06-21). -/
def lunaBirth : BirthDate := ⟨1992, 6, 21⟩

/-- The §8 example profile: birth date present, no birth time, no
location. -/
def profLuna : Profile := ⟨"luna", some lunaBirth, none, none⟩

/-- A structurally invalid profile: the required birth date is
missing. -/
def profNoBirth : Profile := ⟨"anon", none, none, none⟩

/-- A fixed host environment (UTC offset zero, arbitrary clock),
used to exercise the core at concrete inputs. -/
def env0 : HostEnv := ⟨0, 0⟩

/-- A bridge environment in which every command succeeds with a fixed
report on standard output. -/
def sampleEnv : Bridge.Env := fun _ => Bridge.ExecOutcome.ok "report"

/-- Digit sum never exceeds its argument. -/
theorem digitSum_le : ∀ n : Nat, digitSum n ≤ n := by
  intro n
  induction n using Nat.strong_induction_on with
  | _ n ih =>
    rw [digitSum]
    split
    · exact Nat.le_refl n
    · have hq := ih (n / 10) (Nat.div_lt_self (by omega) (by omega))
      omega

/-- Digit sum strictly shrinks any number of two or more digits. -/
theorem digitSum_lt (n : Nat) (h : 10 ≤ n) : digitSum n < n := by
  have hq := digitSum_le (n / 10)
  rw [digitSum, if_neg (by omega : ¬ n < 10)]
  omega

/-- Digit sum of a positive number is positive. -/
theorem digitSum_pos : ∀ n : Nat, 1 ≤ n → 1 ≤ digitSum n := by
  intro n
  induction n using Nat.strong_induction_on with
  | _ n ih =>
    intro h1
    rw [digitSum]
    split
    · omega
    · have hq := ih (n / 10) (Nat.div_lt_self (by omega) (by omega)) (by omega)
      omega

/-- Digit-sum reduction with master numbers lands in the documented
codomain whenever it starts positive. -/
theorem reduceMaster_mem : ∀ n : Nat, 1 ≤ n →
    reduceMaster n ∈ ({1, 2, 3, 4, 5, 6, 7, 8, 9, 11, 22, 33} : Finset ℕ) := by
  intro n
  induction n using Nat.strong_induction_on with
  | _ n ih =>
    intro h1
    rw [reduceMaster]
    split
    · rename_i hc
      simp only [Finset.mem_insert, Finset.mem_singleton]
      omega
    · rename_i hc
      exact ih (digitSum n) (digitSum_lt n (by omega)) (digitSum_pos n h1)

/-- Rounding to 4 decimals keeps a value of [-1, 1] inside [-1, 1]. -/
theorem round4_bounds (x : ℝ) (h1 : -1 ≤ x) (h2 : x ≤ 1) :
    -1 ≤ round4 x ∧ round4 x ≤ 1 := by
  have hub : ⌊x * 10000 + 1 / 2⌋ ≤ 10000 := by
    have hlt : x * 10000 + 1 / 2 < ((10001 : ℤ) : ℝ) := by push_cast; nlinarith
    have := Int.floor_lt.mpr hlt
    omega
  have hlb : (-10000 : ℤ) ≤ ⌊x * 10000 + 1 / 2⌋ := by
    apply Int.le_floor.mpr
    push_cast
    nlinarith
  unfold round4
  constructor
  · rw [le_div_iff₀ (by norm_num : (0 : ℚ) < 10000)]
    have hc : ((-10000 : ℤ) : ℚ) ≤ ((⌊x * 10000 + 1 / 2⌋ : ℤ) : ℚ) := by exact_mod_cast hlb
    push_cast at hc ⊢
    linarith
  · rw [div_le_one (by norm_num : (0 : ℚ) < 10000)]
    exact_mod_cast hub

/-- Every biorhythm cycle value lies in [-1, 1]. -/
theorem biorhythmCycle_bounds (t : Int) (period : Nat) :
    -1 ≤ biorhythmCycle t period ∧ biorhythmCycle t period ≤ 1 :=
  round4_bounds _ (Real.neg_one_le_sin _) (Real.sin_le_one _)

/-- The moon phase fraction lies in [0, 1). -/
theorem moonCompute_fraction_bounds (p : Profile) (d : Int) :
    0 ≤ (moonCompute p d).fraction ∧ (moonCompute p d).fraction < 1 := by
  have hpos : (0 : ℤ) < synodicScaled := by norm_num [synodicScaled]
  have h0 : (0 : ℤ) ≤ ((d - newMoonEpoch) * 1000000000) % synodicScaled :=
    Int.emod_nonneg _ (by omega)
  have h1 : ((d - newMoonEpoch) * 1000000000) % synodicScaled < synodicScaled :=
    Int.emod_lt_of_pos _ hpos
  have hq : (0 : ℚ) < (synodicScaled : ℚ) := by exact_mod_cast hpos
  constructor
  · apply div_nonneg _ (le_of_lt hq)
    exact_mod_cast h0
  · rw [moonCompute]
    rw [div_lt_one hq]
    exact_mod_cast h1

/-- Decoding inverts the string-list encoding used for warnings. -/
theorem decodeStrings_map : ∀ xs : List String,
    decodeStrings (xs.map Json.str) = some xs := by
  intro xs
  induction xs with
  | nil => rfl
  | cons x rest ih => simp [decodeStrings, ih]

/-- Decoding inverts the Moon encoding. -/
theorem moonResult_fromJson_toJson (m : MoonResult) :
    MoonResult.fromJson m.toJson = some m := by
  obtain ⟨f, sg, dg, t⟩ := m
  rfl

/-- Decoding inverts the SolarReturn encoding. -/
theorem solarReturnResult_fromJson_toJson (m : SolarReturnResult) :
    SolarReturnResult.fromJson m.toJson = some m := by
  obtain ⟨l, sg, dg, t⟩ := m
  rfl

/-- Decoding inverts the Numerology encoding. -/
theorem numerologyResult_fromJson_toJson (m : NumerologyResult) :
    NumerologyResult.fromJson m.toJson = some m := by
  obtain ⟨n⟩ := m
  rfl

/-- Decoding inverts the HumanDesign encoding. -/
theorem humanDesignResult_fromJson_toJson (m : HumanDesignResult) :
    HumanDesignResult.fromJson m.toJson = some m := by
  obtain ⟨n⟩ := m
  rfl

/-- Decoding inverts the IChing encoding. -/
theorem iChingResult_fromJson_toJson (m : IChingResult) :
    IChingResult.fromJson m.toJson = some m := by
  obtain ⟨n⟩ := m
  rfl

/-- Decoding inverts the Biorhythm encoding. -/
theorem biorhythmResult_fromJson_toJson (m : BiorhythmResult) :
    BiorhythmResult.fromJson m.toJson = some m := by
  obtain ⟨a, b, c⟩ := m
  rfl

/-- Decoding inverts the RiskAssessment encoding. -/
theorem riskAssessment_fromJson_toJson (m : RiskAssessment) :
    RiskAssessment.fromJson m.toJson = some m := by
  obtain ⟨sc, ws⟩ := m
  have step : RiskAssessment.fromJson (RiskAssessment.toJson ⟨sc, ws⟩) =
      (decodeStrings (ws.map Json.str)).map
        (fun l => ({ score := sc, warnings := l } : RiskAssessment)) := rfl
  rw [step, decodeStrings_map]
  rfl

/-- Decoding inverts the Recommendation encoding. -/
theorem recommendation_fromJson_toJson (m : Recommendation) :
    Recommendation.fromJson m.toJson = some m := by
  obtain ⟨e, n, r⟩ := m
  rfl

/-- On a valid profile and a valid inclusive range, `computeRange`
produces exactly the per-day assembly of each date of the range. -/
theorem computeRange_ok (env : HostEnv) (p : Profile) (b : BirthDate) (s e : Int)
    (hb : p.birthDate = some b) (hse : s ≤ e) (hcap : e - s + 1 ≤ maxRangeDays) :
    computeRange env p s e =
      .ok ((List.range (e - s + 1).toNat).map fun i : Nat => assembleValid env p b (s + (i : Int))) := by
  unfold computeRange
  rw [if_neg (by omega), if_neg (by omega), hb]

/-- C1.  Determinism: for every host environment pair, Profile and
target date, `computeDay` yields byte-identical DailyReport
serializations and identical DomainResults — the result is a pure
function of (Profile, target date) and never reads the ambient machine
state. -/
theorem computeDay_deterministic :
    ∀ (envA envB : HostEnv) (p : Profile) (d : Int),
      serializeDay envA p d = serializeDay envB p d ∧
      computeDay envA p d = computeDay envB p d := by
  intro envA envB p d
  exact ⟨rfl, rfl⟩

/-- C2.  Range invariants: all three biorhythm cycle values lie in
[-1, 1], the moon phase fraction lies in [0, 1), and the numerology
life-path number is one of 1..9, 11, 22, 33, for every well-formed
birth date (month at least 1), profile and target date. -/
theorem domain_range_invariants (p : Profile) (b : BirthDate) (d : Int)
    (hm : 1 ≤ b.month) :
    (-1 ≤ (biorhythmCompute b d).physical ∧ (biorhythmCompute b d).physical ≤ 1) ∧
    (-1 ≤ (biorhythmCompute b d).emotional ∧ (biorhythmCompute b d).emotional ≤ 1) ∧
    (-1 ≤ (biorhythmCompute b d).intellectual ∧ (biorhythmCompute b d).intellectual ≤ 1) ∧
    (0 ≤ (moonCompute p d).fraction ∧ (moonCompute p d).fraction < 1) ∧
    (numerologyCompute b).lifePath ∈ ({1, 2, 3, 4, 5, 6, 7, 8, 9, 11, 22, 33} : Finset ℕ) := by
  refine ⟨?_, ?_, ?_, moonCompute_fraction_bounds p d, ?_⟩
  · simpa [biorhythmCompute] using
      biorhythmCycle_bounds (d - dayOfCivil b.year b.month b.day) 23
  · simpa [biorhythmCompute] using
      biorhythmCycle_bounds (d - dayOfCivil b.year b.month b.day) 28
  · simpa [biorhythmCompute] using
      biorhythmCycle_bounds (d - dayOfCivil b.year b.month b.day) 33
  · simp only [numerologyCompute]
    exact reduceMaster_mem _ (by have := digitSum_pos b.month hm; omega)

/-- Witness for C2 at the spec's §8 example birth date 1992-06-21 and
target date 2026-03-20. -/
theorem domain_range_invariants_witness :
    1 ≤ lunaBirth.month ∧
    (numerologyCompute lunaBirth).lifePath ∈
      ({1, 2, 3, 4, 5, 6, 7, 8, 9, 11, 22, 33} : Finset ℕ) := by
  have h := domain_range_invariants profLuna lunaBirth (dayOfCivil 2026 3 20) (by decide)
  exact ⟨by decide, h.2.2.2.2⟩

/-- C3.  Calendar completeness: on a valid profile and valid inclusive
range, `computeRange` returns exactly end - start + 1 DailyReports
whose dates are start, start+1, ..., end in ascending order with no
gaps or duplicates; in particular the full-year build returns 365
reports for 2026 and 366 for the leap year 2024. -/
theorem computeRange_calendar_complete :
    (∀ (env : HostEnv) (p : Profile) (b : BirthDate) (s e : Int),
      p.birthDate = some b → s ≤ e → e - s + 1 ≤ maxRangeDays →
      ∃ rs, computeRange env p s e = .ok rs ∧ (rs.length : Int) = e - s + 1 ∧
        ∀ i, ∀ hi : i < rs.length, (rs.get ⟨i, hi⟩).date = s + (i : Int)) ∧
    (∀ (env : HostEnv) (p : Profile) (b : BirthDate), p.birthDate = some b →
      ∃ rs, computeYear env p 2026 = .ok rs ∧ rs.length = 365) ∧
    (∀ (env : HostEnv) (p : Profile) (b : BirthDate), p.birthDate = some b →
      ∃ rs, computeYear env p 2024 = .ok rs ∧ rs.length = 366) := by
  have gen : ∀ (env : HostEnv) (p : Profile) (b : BirthDate) (s e : Int),
      p.birthDate = some b → s ≤ e → e - s + 1 ≤ maxRangeDays →
      ∃ rs, computeRange env p s e = .ok rs ∧ (rs.length : Int) = e - s + 1 ∧
        ∀ i, ∀ hi : i < rs.length, (rs.get ⟨i, hi⟩).date = s + (i : Int) := by
    intro env p b s e hb hse hcap
    refine ⟨_, computeRange_ok env p b s e hb hse hcap, ?_, ?_⟩
    · rw [List.length_map, List.length_range,
        Int.toNat_of_nonneg (by omega : (0 : ℤ) ≤ e - s + 1)]
    · intro i hi
      rw [List.get_eq_getElem]
      rw [List.getElem_map]
      rw [List.getElem_range]
      rfl
  refine ⟨gen, ?_, ?_⟩
  · intro env p b hb
    obtain ⟨rs, h1, h2, _⟩ :=
      gen env p b (dayOfCivil 2026 1 1) (dayOfCivil 2026 12 31) hb (by decide) (by decide)
    refine ⟨rs, h1, ?_⟩
    have h365 : (rs.length : Int) = 365 := by rw [h2]; decide
    exact_mod_cast h365
  · intro env p b hb
    obtain ⟨rs, h1, h2, _⟩ :=
      gen env p b (dayOfCivil 2024 1 1) (dayOfCivil 2024 12 31) hb (by decide) (by decide)
    refine ⟨rs, h1, ?_⟩
    have h366 : (rs.length : Int) = 366 := by rw [h2]; decide
    exact_mod_cast h366

/-- Witness for C3 at a concrete profile and the year 2026. -/
theorem computeRange_calendar_complete_witness :
    ∃ rs, computeYear env0 profLuna 2026 = .ok rs ∧ rs.length = 365 := by
  exact computeRange_calendar_complete.2.1 env0 profLuna lunaBirth rfl

/-- C4.  `assemble` fails exactly when the Profile is structurally
invalid (its required birth date missing), in which case the error is
`ProfileInvalid`; whenever a birth date is present it succeeds, so a
missing optional birth time or location never causes a failure. -/
theorem assemble_profileInvalid_iff :
    ∀ (env : HostEnv) (p : Profile) (d : Int),
      ((∃ err, assemble env p d = .error err) ↔ p.birthDate = none) ∧
      (p.birthDate = none → assemble env p d = .error .profileInvalid) ∧
      (∀ b, p.birthDate = some b → ∃ r, assemble env p d = .ok r) := by
  intro env p d
  cases hp : p.birthDate with
  | none => simp [assemble, hp]
  | some b => simp [assemble, hp]

/-- Witness for C4: the birth-date-less profile is rejected with
`ProfileInvalid` and the §8 example profile (optional fields absent)
is accepted. -/
theorem assemble_profileInvalid_iff_witness :
    assemble env0 profNoBirth 0 = .error .profileInvalid ∧
    ∃ r, assemble env0 profLuna 0 = .ok r := by
  exact ⟨(assemble_profileInvalid_iff env0 profNoBirth 0).2.1 rfl,
    (assemble_profileInvalid_iff env0 profLuna 0).2.2 lunaBirth rfl⟩

/-- C5.  UTC fallback: on a profile with no location (and a birth date
present), `computeDay` succeeds and both location-dependent
DomainResults — Moon and SolarReturn — carry the `CalculatorDegraded`
flag with their timezone recorded as UTC. -/
theorem computeDay_location_fallback :
    ∀ (env : HostEnv) (p : Profile) (b : BirthDate) (d : Int),
      p.birthDate = some b → p.location = none →
      ∃ r, computeDay env p d = .ok r ∧
        r.moon.degraded = true ∧ r.moon.tz = "UTC" ∧
        r.solar.degraded = true ∧ r.solar.tz = "UTC" := by
  intro env p b d hb hl
  refine ⟨assembleValid env p b d, ?_, ?_, ?_, ?_, ?_⟩
  · simp [computeDay, assemble, hb]
  · simp [assembleValid, moonCompute, hl]
  · simp [assembleValid, moonCompute, resolveTz, hl]
  · simp [assembleValid, solarCompute, hl]
  · simp [assembleValid, solarCompute, resolveTz, hl]

/-- Witness for C5 at the §8 example profile (no location) and target
date 2026-03-20. -/
theorem computeDay_location_fallback_witness :
    ∃ r, computeDay env0 profLuna (dayOfCivil 2026 3 20) = .ok r ∧
      r.moon.degraded = true ∧ r.moon.tz = "UTC" ∧
      r.solar.degraded = true ∧ r.solar.tz = "UTC" := by
  exact computeDay_location_fallback env0 profLuna lunaBirth (dayOfCivil 2026 3 20) rfl rfl

/-- C6.  Format round trip: rendering any DailyReport to JSON and
parsing the JSON back reconstructs every field with identical values —
the formatter never alters a value, only its textual representation. -/
theorem dailyReport_json_round_trip :
    ∀ r : DailyReport, DailyReport.fromJson (DailyReport.toJson r) = some r := by
  intro r
  obtain ⟨d, nm, m, s, nu, hd, ic, bi, rk, rc⟩ := r
  have step : DailyReport.fromJson (DailyReport.toJson ⟨d, nm, m, s, nu, hd, ic, bi, rk, rc⟩) =
      (MoonResult.fromJson m.toJson).bind fun m2 =>
      (SolarReturnResult.fromJson s.toJson).bind fun s2 =>
      (NumerologyResult.fromJson nu.toJson).bind fun nu2 =>
      (HumanDesignResult.fromJson hd.toJson).bind fun hd2 =>
      (IChingResult.fromJson ic.toJson).bind fun ic2 =>
      (BiorhythmResult.fromJson bi.toJson).bind fun bi2 =>
      (RiskAssessment.fromJson rk.toJson).bind fun rk2 =>
      (Recommendation.fromJson rc.toJson).map fun rc2 =>
        { date := d, profileName := nm, moon := m2, solar := s2, numerology := nu2,
          humanDesign := hd2, iChing := ic2, biorhythm := bi2, risk := rk2,
          recommendation := rc2 } := rfl
  rw [step, moonResult_fromJson_toJson, solarReturnResult_fromJson_toJson,
    numerologyResult_fromJson_toJson, humanDesignResult_fromJson_toJson,
    iChingResult_fromJson_toJson, biorhythmResult_fromJson_toJson,
    riskAssessment_fromJson_toJson, recommendation_fromJson_toJson]
  rfl

end SkyForge

/-- C7.  The bridge is the program's whole executable behaviour:
`run(args)` delegates the entire computation to the external
`skskyforge` command-line program — its result is exactly the outcome
of executing that external command, nothing computed locally. -/
theorem run_delegates_to_external :
    ∀ (env : Bridge.Env) (args : String),
      Bridge.run env args = env ("skskyforge " ++ args) := by
  intro env args
  rfl

/-- C8.  `checkInstalled()` is total and returns a boolean for every
environment outcome: true exactly when at least one of the interpreters
python3 or python (tried in that order) imports the skskyforge package
successfully, false exactly when both probes fail. -/
theorem checkInstalled_total_boolean :
    ∀ env : Bridge.Env,
      (Bridge.checkInstalled env = true ↔
        (∃ out, env (Bridge.importProbe "python3") = .ok out) ∨
        (∃ out, env (Bridge.importProbe "python") = .ok out)) ∧
      (Bridge.checkInstalled env = false ↔
        (∃ msg, env (Bridge.importProbe "python3") = .err msg) ∧
        (∃ msg, env (Bridge.importProbe "python") = .err msg)) := by
  intro env
  cases h3 : env (Bridge.importProbe "python3") <;>
    cases hp : env (Bridge.importProbe "python") <;>
    simp [Bridge.checkInstalled, h3, hp]

/-- C9.  `run(args)` returns the decoded standard output when the
command succeeds and propagates the underlying execution error when it
fails — no catching or fallback of its own. -/
theorem run_propagates_outcome :
    ∀ (env : Bridge.Env) (args : String),
      (∀ out, env (Bridge.runCommand args) = .ok out → Bridge.run env args = .ok out) ∧
      (∀ msg, env (Bridge.runCommand args) = .err msg → Bridge.run env args = .err msg) := by
  intro env args
  exact ⟨fun out h => h, fun msg h => h⟩

/-- Witness for C9: in the environment where every command succeeds
with output "report", `run "daily"` returns exactly that output. -/
theorem run_propagates_outcome_witness :
    Bridge.run SkyForge.sampleEnv "daily" = .ok "report" := by
  exact (run_propagates_outcome SkyForge.sampleEnv "daily").1 "report" rfl

/-- C10.  The shell command `run(args)` executes is exactly the
concatenation of "skskyforge " with args: no escaping, quoting, or
validation is applied, so even shell metacharacters pass through
verbatim. -/
theorem runCommand_no_escaping :
    (∀ args : String, Bridge.runCommand args = "skskyforge " ++ args) ∧
    Bridge.runCommand "daily; echo $(whoami) \"quoted\"" =
      "skskyforge daily; echo $(whoami) \"quoted\"" := by
  exact ⟨fun _ => rfl, rfl⟩
